import Mathlib

/-!
# Vync — verification of the analysis pipeline orchestrator and the status
synchronization client

Shallow embedding of the Supabase Edge Function handler (the pipeline
orchestrator) and of the AnalysisView effect logic (the status
synchronization client), translated from the TypeScript sources.
External calls (storage download, Gemini upload/generate, DB upsert,
Supabase pulls, realtime push deliveries, JSON.parse as a language
builtin) are modelled as environment-provided outcomes; everything the
handlers compute from those outcomes is embedded faithfully.
-/

namespace Vync

/-! ## JavaScript value model

JSON values produced by JSON.parse and carried through the handler.
Numbers are modelled as integers (every numeric literal the relevant
code paths inspect is integer-valued); undefined is included because
property access on a missing key yields undefined in JS. -/

inductive JsVal where
  | str (s : String)
  | num (n : Int)
  | boolV (b : Bool)
  | nul
  | undef
  | arr (elems : List JsVal)
  | obj (fields : List (String × JsVal))

mutual

/-- JS String(x) coercion; arrays stringify by joining element
strings with commas, null and undefined elements joining as empty
(Array.prototype.toString semantics); plain objects give the usual
object tag. -/
def jsToString : JsVal → String
  | JsVal.str s => s
  | JsVal.num n => toString n
  | JsVal.boolV b => cond b "true" "false"
  | JsVal.nul => "null"
  | JsVal.undef => "undefined"
  | JsVal.obj _ => "[object Object]"
  | JsVal.arr xs => String.intercalate "," (jsArrStrings xs)

def jsArrStrings : List JsVal → List String
  | [] => []
  | JsVal.nul :: xs => "" :: jsArrStrings xs
  | JsVal.undef :: xs => "" :: jsArrStrings xs
  | x :: xs => jsToString x :: jsArrStrings xs

end

/-- Field lookup on a JS object field list (first occurrence wins). -/
def lookupField (fields : List (String × JsVal)) (k : String) : Option JsVal :=
  match fields.find? (fun p => p.1 == k) with
  | some p => some p.2
  | none => none

/-- JS "k in o" test on an object field list. -/
def hasField (fields : List (String × JsVal)) (k : String) : Bool :=
  (lookupField fields k).isSome

/-- JS property access o.k, yielding undefined when absent or when the
receiver is not an object. -/
def getProp (v : JsVal) (k : String) : JsVal :=
  match v with
  | JsVal.obj fs => (lookupField fs k).getD JsVal.undef
  | _ => JsVal.undef

/-! ## String helpers (JS semantics, ASCII fragment) -/

/-- JS whitespace class over the ASCII range (space, tab, newline,
carriage return, vertical tab, form feed). -/
def isJsSpace (c : Char) : Bool :=
  c == ' ' || c == '\t' || c == '\n' || c == '\r' ||
    c == Char.ofNat 11 || c == Char.ofNat 12

def trimList (cs : List Char) : List Char :=
  ((cs.dropWhile isJsSpace).reverse.dropWhile isJsSpace).reverse

/-- JS String.prototype.trim (ASCII whitespace fragment). -/
def jsTrim (s : String) : String :=
  String.mk (trimList s.toList)

def startsWithList : List Char → List Char → Bool
  | _, [] => true
  | [], _ :: _ => false
  | c :: cs, d :: ds => c == d && startsWithList cs ds

/-- Whether the needle occurs as a contiguous run inside the haystack. -/
def occursIn (needle : List Char) : List Char → Bool
  | [] => startsWithList [] needle
  | c :: cs => startsWithList (c :: cs) needle || occursIn needle cs

def containsSubstrJs (hay needle : String) : Bool :=
  occursIn needle.toList hay.toList

def asciiLower (c : Char) : Char :=
  if 'A' ≤ c ∧ c ≤ 'Z' then Char.ofNat (c.toNat + 32) else c

def lowerStr (s : String) : String :=
  String.mk (s.toList.map asciiLower)

/-- First 'n' characters, JS slice(0, n). -/
def stringTake (s : String) (n : Nat) : String :=
  String.mk (s.toList.take n)

/-! ## Analysis-text JSON extraction (part_002 lines 259-270)

The handler extracts the JSON payload from the raw model text:
first it matches the code-fence regex and takes the trimmed interior
of the first fenced block, otherwise it slices from the first opening
brace to the last closing brace. -/

def backtickChar : Char := Char.ofNat 96

def lbraceChar : Char := Char.ofNat 123

def rbraceChar : Char := Char.ofNat 125

def fenceChars : List Char := [backtickChar, backtickChar, backtickChar]

def jsonChars : List Char := ['j', 's', 'o', 'n']

/-- Characters strictly before the first triple-backtick run, or none
when no such run occurs. -/
def splitBeforeFence : List Char → Option (List Char)
  | [] => none
  | c :: cs =>
      if startsWithList (c :: cs) fenceChars then some []
      else (splitBeforeFence cs).map (fun l => c :: l)

/-- Attempt the fence regex anchored at the head of the list: a triple
backtick, an optional literal json, greedy whitespace, then the lazily
captured body up to the next triple backtick. -/
def matchFenceAt (cs : List Char) : Option (List Char) :=
  if startsWithList cs fenceChars then
    let r1 := cs.drop 3
    let r2 := if startsWithList r1 jsonChars then r1.drop 4 else r1
    let r3 := r2.dropWhile isJsSpace
    splitBeforeFence r3
  else none

/-- Leftmost match of the code-fence regex, returning the captured
interior. -/
def fenceSearch : List Char → Option (List Char)
  | [] => none
  | c :: cs =>
      match matchFenceAt (c :: cs) with
      | some body => some body
      | none => fenceSearch cs

/-- The non-fenced branch: slice from the first opening brace to one
past the last closing brace when that range is non-degenerate, else
keep the whole text. -/
def braceSlice (responseText : String) : String :=
  let cs := responseText.toList
  match cs.findIdx? (fun c => c == lbraceChar) with
  | none => responseText
  | some s =>
      match cs.reverse.findIdx? (fun c => c == rbraceChar) with
      | none => responseText
      | some j =>
          let e := cs.length - 1 - j
          if e + 1 > s then String.mk ((cs.drop s).take (e + 1 - s))
          else responseText

/-- The JSON string selected by the handler from the raw model text. -/
def extractJson (responseText : String) : String :=
  match fenceSearch responseText.toList with
  | some body => String.mk (trimList body)
  | none => braceSlice responseText

/-! ## Key-insight normalization and analysis assembly
(part_002 lines 209-291) -/

/-- The default branch of the key-insight map: timestamp 0,
importance 5, text the JS stringification of the item. -/
def defaultInsight (item : JsVal) : JsVal :=
  JsVal.obj
    [("timestamp", JsVal.num 0), ("importance", JsVal.num 5),
     ("text", JsVal.str (jsToString item))]

/-- The stringified text field of a qualifying insight object:
String(o.text ?? ""). -/
def textOfInsight (fields : List (String × JsVal)) : String :=
  match lookupField fields "text" with
  | none => ""
  | some JsVal.undef => ""
  | some JsVal.nul => ""
  | some v => jsToString v

/-- One item of the key-insights map: objects carrying both a
timestamp and an importance key pass those two values through and
stringify the text field; every other item gets the defaults. -/
def normalizeKeyInsight (item : JsVal) : JsVal :=
  match item with
  | JsVal.obj fields =>
      if hasField fields "timestamp" && hasField fields "importance" then
        JsVal.obj
          [("timestamp", (lookupField fields "timestamp").getD JsVal.undef),
           ("importance", (lookupField fields "importance").getD JsVal.undef),
           ("text", JsVal.str (textOfInsight fields))]
      else defaultInsight item
  | _ => defaultInsight item

/-- The key-insights array mapping; a non-array value leaves the
initial empty list in place. -/
def normalizeKeyInsights (raw : JsVal) : List JsVal :=
  match raw with
  | JsVal.arr xs => xs.map normalizeKeyInsight
  | _ => []

structure AnalysisData where
  summary : String
  thought_trace : List JsVal
  chapters : List JsVal
  key_insights : List JsVal
  timeline_data : List JsVal
  diagram_data : List JsVal

def asArr : JsVal → List JsVal
  | JsVal.arr xs => xs
  | _ => []

/-- Defensive coercion of the parsed model response into the row
written to video_analyses. -/
def buildAnalysisData (parsed : JsVal) : AnalysisData :=
  { summary :=
      match getProp parsed "summary" with
      | JsVal.str s => s
      | _ => ""
    thought_trace := asArr (getProp parsed "thought_trace")
    chapters := asArr (getProp parsed "chapters")
    key_insights := normalizeKeyInsights (getProp parsed "key_insights")
    timeline_data := asArr (getProp parsed "timeline_data")
    diagram_data := asArr (getProp parsed "diagram_data") }

/-! ## Job record store (videos and video_analyses tables)

The handler reads the job row once, then performs writes; the writes
are recorded as a list of store operations so that the intermediate
states of the job row are visible to the invariants. -/

structure Job where
  id : String
  storagePath : Option String
  status : String
  errorMessage : Option String
deriving DecidableEq, Repr

structure DB where
  jobs : List Job
  analyses : List (String × AnalysisData)

inductive StoreOp where
  | setStatus (videoId status : String) (errorMsg : Option String)
  | upsertAnalysis (videoId : String) (data : AnalysisData)

/-- The column update built by updateVideoStatus: status always, the
error_message column only when a non-empty message is supplied. -/
def updJob (status : String) (errorMsg : Option String) (j : Job) : Job :=
  { j with
    status := status
    errorMessage :=
      match errorMsg with
      | some m => if m ≠ "" then some m else j.errorMessage
      | none => j.errorMessage }

/-- updateVideoStatus (part_002 lines 45-50): update every row with
the given id. -/
def applyStatus (jobs : List Job) (videoId status : String)
    (errorMsg : Option String) : List Job :=
  jobs.map fun j => if j.id == videoId then updJob status errorMsg j else j

/-- Upsert into video_analyses with onConflict video_id: replace the
existing row for the id or append a new one. -/
def upsertByVideoId (rows : List (String × AnalysisData)) (vid : String)
    (d : AnalysisData) : List (String × AnalysisData) :=
  if rows.any (fun p => p.1 == vid) then
    rows.map (fun p => if p.1 == vid then (vid, d) else p)
  else rows ++ [(vid, d)]

def applyOp (db : DB) : StoreOp → DB
  | StoreOp.setStatus v st em => { db with jobs := applyStatus db.jobs v st em }
  | StoreOp.upsertAnalysis v d => { db with analyses := upsertByVideoId db.analyses v d }

def applyOps (db : DB) (ops : List StoreOp) : DB :=
  ops.foldl applyOp db

/-- select ... eq(id).single(): the query errors unless exactly one
row matches. -/
def singleJob (db : DB) (videoId : String) : Option Job :=
  match db.jobs.filter (fun j => j.id == videoId) with
  | [j] => some j
  | _ => none

/-- First job row with the given id, used to read the job state after
a sequence of store operations. -/
def lookupJob (db : DB) (videoId : String) : Option Job :=
  db.jobs.find? (fun j => j.id == videoId)

def jobStatusIn (db : DB) (videoId : String) : Option String :=
  (lookupJob db videoId).map Job.status

def jobErrorIn (db : DB) (videoId : String) : Option (Option String) :=
  (lookupJob db videoId).map Job.errorMessage

/-- Truthiness of video.storage_path: present and non-empty. -/
def hasStoragePath (j : Job) : Bool :=
  match j.storagePath with
  | none => false
  | some p => p ≠ ""

/-! ## Pipeline orchestrator (part_002 Deno.serve handler) -/

/-- The parsed request body: badJson for an unparseable body, fields
for a JSON body carrying an optional record.id and an optional
video_id. -/
inductive ReqBody where
  | badJson
  | fields (recordId : Option String) (videoId : Option String)

/-- Outcome of the Gemini generateContent call: the fetch throws, the
response is non-success carrying an error body, or it succeeds with a
response text (the candidates text, before trimming). -/
inductive GenOutcome where
  | netFail (msg : String)
  | httpFail (errText : String)
  | ok (text : String)

/-- External-world outcomes of one orchestrator invocation; parseJson
stands for the JSON.parse builtin (error message or parsed value). -/
structure OrchEnv where
  geminiKeySet : Bool
  downloadOk : Bool
  uploadStartOk : Bool
  uploadTransferOk : Bool
  genOutcome : GenOutcome
  parseJson : String → Except String JsVal
  upsertOk : Bool
  upsertErrMsg : String

structure HttpResponse where
  status : Nat
  error : Option String
  detail : Option String
  okFlag : Bool
deriving DecidableEq, Repr

def mkResp (status : Nat) (error detail : Option String) : HttpResponse :=
  { status := status, error := error, detail := detail, okFlag := false }

def notFoundResp : HttpResponse :=
  mkResp 404 (some "Video not found or no storage_path") none

/-- Resolution of the video id from the request body (part_002 lines
62-80): record.id wins when present and truthy, else video_id, else a
400 error; the chosen id is trimmed. -/
def resolveDirect : Option String → Except String String
  | some v => if v ≠ "" then Except.ok (jsTrim v) else Except.error "Missing video_id or webhook record"
  | none => Except.error "Missing video_id or webhook record"

def resolveVideoIdFull : ReqBody → Except String String
  | ReqBody.badJson => Except.error "Invalid JSON body"
  | ReqBody.fields rid vid =>
      match rid with
      | some r => if r ≠ "" then Except.ok (jsTrim r) else resolveDirect vid
      | none => resolveDirect vid

/-- Steps 2-7 of the handler, entered once the job is resolved and has
a storage path: mark processing, then run download, upload
negotiation, upload transfer, generation, parsing and persistence,
recording every status write. -/
def runPipeline (env : OrchEnv) (videoId : String) : HttpResponse × List StoreOp :=
  let markProcessing := StoreOp.setStatus videoId "processing" none
  if env.downloadOk = false then
    (mkResp 500 (some "Failed to download video from storage") none,
     [markProcessing, StoreOp.setStatus videoId "failed" (some "Failed to download video")])
  else if env.uploadStartOk = false then
    (mkResp 500 (some "Gemini upload start failed") none,
     [markProcessing, StoreOp.setStatus videoId "failed" (some "Gemini upload initialization failed")])
  else if env.uploadTransferOk = false then
    (mkResp 500 (some "Gemini file upload failed") none,
     [markProcessing, StoreOp.setStatus videoId "failed" (some "Gemini file upload failed")])
  else
    match env.genOutcome with
    | GenOutcome.netFail m =>
        (mkResp 502 (some "Gemini analysis failed") (some m),
         [markProcessing, StoreOp.setStatus videoId "failed" (some "Gemini analysis failed")])
    | GenOutcome.httpFail t =>
        (mkResp 502 (some "Gemini analysis failed") (some ("Gemini generate failed: " ++ t)),
         [markProcessing, StoreOp.setStatus videoId "failed" (some "Gemini analysis failed")])
    | GenOutcome.ok text =>
        let responseText := jsTrim text
        if responseText = "" then
          (mkResp 502 (some "Gemini analysis failed") (some "Empty response from Gemini"),
           [markProcessing, StoreOp.setStatus videoId "failed" (some "Gemini analysis failed")])
        else
          match env.parseJson (extractJson responseText) with
          | Except.error m =>
              (mkResp 502 (some "Gemini analysis failed") (some m),
               [markProcessing, StoreOp.setStatus videoId "failed" (some "Gemini analysis failed")])
          | Except.ok parsed =>
              if env.upsertOk = false then
                (mkResp 500 (some "Failed to save analysis") (some env.upsertErrMsg),
                 [markProcessing, StoreOp.setStatus videoId "failed" (some "Failed to save analysis")])
              else
                ({ status := 200, error := none, detail := none, okFlag := true },
                 [markProcessing,
                  StoreOp.upsertAnalysis videoId (buildAnalysisData parsed),
                  StoreOp.setStatus videoId "completed" none])

/-- The full part_002 request handler: parse the body, check the
Gemini key, resolve the job row, then run the pipeline. Returns the
HTTP response together with the store operations performed, in
order. -/
def handleRequest (env : OrchEnv) (body : ReqBody) (db : DB) :
    HttpResponse × List StoreOp :=
  match resolveVideoIdFull body with
  | Except.error e => (mkResp 400 (some e) none, [])
  | Except.ok videoId =>
      if env.geminiKeySet = false then
        (mkResp 500 (some "GEMINI_API_KEY not configured") none, [])
      else
        match singleJob db videoId with
        | none => (notFoundResp, [])
        | some video =>
            if hasStoragePath video = false then (notFoundResp, [])
            else runPipeline env videoId

/-- Whether an invocation reaches the mark-processing step: the body
resolves to an id, the key is configured, and the job row exists with
a storage path. -/
def reachesProcessing (env : OrchEnv) (body : ReqBody) (db : DB) : Bool :=
  match resolveVideoIdFull body with
  | Except.error _ => false
  | Except.ok v =>
      env.geminiKeySet &&
        (match singleJob db v with
         | some j => hasStoragePath j
         | none => false)

/-- The statuses written to the job row, in write order. -/
def statusWritesOf (ops : List StoreOp) : List String :=
  ops.filterMap fun op =>
    match op with
    | StoreOp.setStatus _ st _ => some st
    | _ => none

/-! ## The analysis_trigger variant (part_003 lines 209-223)

The other orchestrator in the repository handles an unparseable
inference response by building a structured diagnostic that carries a
preview of the raw text, and by writing status failed without any
error message column. -/

structure ParseFailureDiag where
  errorTag : String
  parseError : String
  rawLength : Nat
  rawPreview : String
deriving DecidableEq, Repr

/-- The JSON.parse catch block of the analysis_trigger function:
diagnostic with the first 500 characters of the raw text, plus the
bare status write. -/
def analysisTriggerParseCatch (videoIdUuid responseText parseErrMsg : String) :
    ParseFailureDiag × StoreOp :=
  ({ errorTag := "Gemini response is not valid JSON"
     parseError := parseErrMsg
     rawLength := responseText.length
     rawPreview := stringTake responseText 500 },
   StoreOp.setStatus videoIdUuid "failed" none)

/-! ## Status synchronization client (part_006 AnalysisView effect)

The component state is the React state visible to the render, plus
the liveness of the poll interval, the two realtime channels and the
one-shot early poll timer. Asynchronous completions (poll ticks, the
one-time initial fetch chain, the standalone status fetch, push
deliveries, effect cleanup) are events; the data carried by each
event is the outcome the environment delivered to that callback. -/

/-- A video_analyses row as seen by the client; only the columns the
synchronization logic inspects are kept, with an opaque content tag
standing for the remaining payload columns. -/
structure RowE where
  rid : Option String
  videoId : Option String
  content : Nat
deriving DecidableEq, Repr

/-- rowToPayload nullity logic (part_006 lines 120-136): a missing row
or a row missing both its id and its video_id maps to null; any other
row yields a payload. -/
def rowToPayload (row : Option RowE) : Option RowE :=
  match row with
  | none => none
  | some r => if r.rid = none ∧ r.videoId = none then none else some r

def POLL_INTERVAL_MS : Nat := 3000

def MAX_POLL_TIMEOUT_MS : Nat := 5 * 60 * 1000

def failedStatusMessage : String :=
  "Analysis failed. Please try again or use a shorter video."

def timeoutMessage : String :=
  "Analysis is taking longer than expected (5 min). Please try again or use a shorter video."

structure ClientState where
  internalPayload : Option RowE
  loading : Bool
  error : Option String
  videoStatus : Option String
  fallbackVideoId : Option String
  pollActive : Bool
  channelsActive : Bool
  earlyTimerPending : Bool
  pollStart : Nat
deriving DecidableEq, Repr

/-- State right after the subscribe effect body ran: payload reset,
loading, both channels subscribed, interval armed, early one-shot
poll timer pending, poll clock started. -/
def initState (now : Nat) : ClientState :=
  { internalPayload := none
    loading := true
    error := none
    videoStatus := some "processing"
    fallbackVideoId := none
    pollActive := true
    channelsActive := true
    earlyTimerPending := true
    pollStart := now }

/-- Outcome of one video_analyses pull for the requested id. -/
inductive PullResult where
  | ok (row : Option RowE)
  | err (code msg : String)
  | exn (msg : String)

/-- Outcome of the latest-analysis fallback pull. -/
inductive LatestPull where
  | ok (row : Option RowE)
  | err (msg : String)
  | exn (msg : String)

/-- Outcome of a videos.status pull. -/
inductive StatusPull where
  | ok (status : Option String)
  | err (msg : String)
  | exn (msg : String)

inductive Ev where
  | pollTick (now : Nat) (ap : PullResult) (lp : LatestPull) (sp : StatusPull)
  | earlyPoll (now : Nat) (ap : PullResult) (lp : LatestPull) (sp : StatusPull)
  | initialFetch (ap : PullResult) (lp : LatestPull)
  | statusFetch (sp : StatusPull)
  | pushAnalysisRow (row : RowE)
  | pushVideoStatus (status : Option String)
  | cleanup

/-- The 400-class test applied to a pull error (part_006 line 267). -/
def is400 (code msg : String) : Bool :=
  code == "PGRST301" || containsSubstrJs msg "400" ||
    containsSubstrJs (lowerStr msg) "bad request"

/-- applyResult (part_006 lines 193-199): a null result is dropped; a
non-null one becomes the payload, clears the error, stops the loading
indicator, and records the fallback tag when the result was adopted
from another job id. -/
def applyResult (s : ClientState) (data : Option RowE)
    (fromFallbackVideoId : Option String) : ClientState :=
  match data with
  | none => s
  | some d =>
      { s with
        internalPayload := some d
        error := none
        loading := false
        fallbackVideoId :=
          match fromFallbackVideoId with
          | some f => some f
          | none => s.fallbackVideoId }

/-- fetchOnce (part_006 lines 258-295): returns the pulled payload;
400-class errors are only logged; other errors and exceptions set the
error state only when setErrorOnFail is passed. -/
def fetchOnceStep (s : ClientState) (setErrorOnFail : Bool) (r : PullResult) :
    Option RowE × ClientState :=
  match r with
  | PullResult.ok row => (rowToPayload row, s)
  | PullResult.err code msg =>
      if is400 code msg then (none, s)
      else if setErrorOnFail then (none, { s with error := some msg, loading := false })
      else (none, s)
  | PullResult.exn msg =>
      if setErrorOnFail then (none, { s with error := some msg, loading := false })
      else (none, s)

/-- Adoption of a truthy status value into videoStatus. -/
def statusAdopt (s : ClientState) (st : Option String) : ClientState :=
  match st with
  | some v => if v ≠ "" then { s with videoStatus := some v } else s
  | none => s

/-- The shared reaction to an observed job status, performed
identically by the videos push handler (part_006 lines 243-254) and
by fetchVideoStatus (lines 297-320): adopt a truthy status, and on
failed clear the interval, set the failure message and stop
loading. -/
def statusApply (s : ClientState) (st : Option String) : ClientState :=
  if st = some "failed" then
    { statusAdopt s st with
      pollActive := false, error := some failedStatusMessage, loading := false }
  else statusAdopt s st

/-- fetchVideoStatus (part_006 lines 297-320): pull errors are only
logged; a delivered status is applied. -/
def fetchVideoStatusStep (s : ClientState) (sp : StatusPull) : ClientState :=
  match sp with
  | StatusPull.err _ => s
  | StatusPull.exn _ => s
  | StatusPull.ok st => statusApply s st

/-- fetchLatestAnalysis (part_006 lines 322-345): when the newest
analysis row overall exists, yields a payload and carries a truthy
video_id, it is adopted with the owning id as the fallback tag. -/
def fetchLatestAnalysisStep (s : ClientState) (lp : LatestPull) : Bool × ClientState :=
  match lp with
  | LatestPull.err _ => (false, s)
  | LatestPull.exn _ => (false, s)
  | LatestPull.ok none => (false, s)
  | LatestPull.ok (some row) =>
      match rowToPayload (some row), row.videoId with
      | some p, some vid =>
          if vid ≠ "" then (true, applyResult s (some p) (some vid))
          else (false, s)
      | _, _ => (false, s)

/-- runPoll (part_006 lines 351-370): past the global timeout the
interval is cleared and the timeout error rendered; otherwise a pull
without error reporting, falling back to the latest-analysis pull and
then to a status pull. -/
def runPollStep (s : ClientState) (now : Nat) (ap : PullResult)
    (lp : LatestPull) (sp : StatusPull) : ClientState :=
  if now - s.pollStart > MAX_POLL_TIMEOUT_MS then
    { s with pollActive := false, error := some timeoutMessage, loading := false }
  else
    match fetchOnceStep s false ap with
    | (some p, s1) => applyResult s1 (some p) none
    | (none, s1) =>
        match fetchLatestAnalysisStep s1 lp with
        | (true, s2) => s2
        | (false, s2) => fetchVideoStatusStep s2 sp

/-- The one-time fetchOnce(true) chain (part_006 lines 373-381): a
payload is applied; otherwise loading is forced back on and the
latest-analysis fallback is attempted. -/
def initialFetchStep (s : ClientState) (ap : PullResult) (lp : LatestPull) :
    ClientState :=
  match fetchOnceStep s true ap with
  | (some p, s1) => applyResult s1 (some p) none
  | (none, s1) => (fetchLatestAnalysisStep { s1 with loading := true } lp).2

/-- The video_analyses INSERT and UPDATE channel handler (part_006
lines 204-229). -/
def pushAnalysisStep (s : ClientState) (row : RowE) : ClientState :=
  match rowToPayload (some row) with
  | some p => applyResult s (some p) none
  | none => s

/-- The videos UPDATE channel handler (part_006 lines 233-256). -/
def pushVideoStatusStep (s : ClientState) (st : Option String) : ClientState :=
  statusApply s st

/-- One client transition: interval ticks fire only while the
interval is armed, the early one-shot timer fires at most once and is
cancelled by cleanup, push handlers fire only while subscribed, and
cleanup tears down the interval, the timer and both channels. -/
def step (s : ClientState) : Ev → ClientState
  | Ev.pollTick now ap lp sp =>
      if s.pollActive then runPollStep s now ap lp sp else s
  | Ev.earlyPoll now ap lp sp =>
      if s.earlyTimerPending then
        runPollStep { s with earlyTimerPending := false } now ap lp sp
      else s
  | Ev.initialFetch ap lp => initialFetchStep s ap lp
  | Ev.statusFetch sp => fetchVideoStatusStep s sp
  | Ev.pushAnalysisRow row =>
      if s.channelsActive then pushAnalysisStep s row else s
  | Ev.pushVideoStatus st =>
      if s.channelsActive then pushVideoStatusStep s st else s
  | Ev.cleanup =>
      { s with pollActive := false, channelsActive := false, earlyTimerPending := false }

/-! ## Helper lemmas about the job store -/

lemma updJob_id (status : String) (em : Option String) (j : Job) :
    (updJob status em j).id = j.id := rfl

lemma find?_applyStatus (jobs : List Job) (v status : String) (em : Option String) :
    (applyStatus jobs v status em).find? (fun j => j.id == v) =
      (jobs.find? (fun j => j.id == v)).map (updJob status em) := by
  induction jobs with
  | nil => rfl
  | cons a l ih =>
      cases ha : (a.id == v) with
      | true => simp [applyStatus, List.find?, ha, updJob_id]
      | false => simpa [applyStatus, List.find?, ha] using ih

lemma lookupJob_applyStatus (db : DB) (v status : String) (em : Option String) :
    lookupJob (applyOp db (StoreOp.setStatus v status em)) v =
      (lookupJob db v).map (updJob status em) := by
  simp [lookupJob, applyOp, find?_applyStatus]

lemma lookupJob_upsert (db : DB) (v w : String) (d : AnalysisData) :
    lookupJob (applyOp db (StoreOp.upsertAnalysis w d)) v = lookupJob db v := rfl

lemma find_of_filter_singleton (l : List Job) (v : String) (j : Job)
    (h : l.filter (fun x => x.id == v) = [j]) :
    l.find? (fun x => x.id == v) = some j := by
  induction l with
  | nil => simp at h
  | cons a t ih =>
      cases ha : (a.id == v) with
      | true =>
          simp only [List.filter_cons, if_pos ha, List.cons.injEq] at h
          obtain ⟨rfl, -⟩ := h
          simp [List.find?, ha]
      | false =>
          simp only [List.filter_cons, ha, if_neg (by simp [ha] : ¬ ((a.id == v) = true))] at h
          simp only [List.find?, ha]
          exact ih h

lemma lookup_of_single (db : DB) (v : String) (j : Job)
    (h : singleJob db v = some j) : lookupJob db v = some j := by
  unfold singleJob at h
  unfold lookupJob
  cases hf : db.jobs.filter (fun x => x.id == v) with
  | nil => rw [hf] at h; simp at h
  | cons b bs =>
      cases bs with
      | nil =>
          rw [hf] at h
          simp only [Option.some.injEq] at h
          rw [← h]
          exact find_of_filter_singleton db.jobs v b hf
      | cons c cs => rw [hf] at h; simp at h

/-- The five short failure messages step 3 through step 6 can record
on the job. -/
def failureMessages : List String :=
  ["Failed to download video", "Gemini upload initialization failed",
   "Gemini file upload failed", "Gemini analysis failed", "Failed to save analysis"]

lemma mem_failureMessages_ne_empty : ∀ m ∈ failureMessages, m ≠ "" := by decide

/-- Exhaustive shape of one pipeline run past the mark-processing
write: either success with the upsert sandwiched between the
processing and completed writes, or a failure with one terminal
failed write carrying one of the five short messages. -/
lemma runPipeline_cases (env : OrchEnv) (v : String) :
    ((runPipeline env v).1.status = 200 ∧
      ∃ d, (runPipeline env v).2 =
        [StoreOp.setStatus v "processing" none,
         StoreOp.upsertAnalysis v d,
         StoreOp.setStatus v "completed" none]) ∨
    ((runPipeline env v).1.status ≠ 200 ∧
      ∃ m, m ∈ failureMessages ∧ (runPipeline env v).2 =
        [StoreOp.setStatus v "processing" none,
         StoreOp.setStatus v "failed" (some m)]) := by
  unfold runPipeline
  by_cases hd : env.downloadOk = false
  · right
    refine ⟨by simp [hd, mkResp], "Failed to download video", by decide, by simp [hd]⟩
  · by_cases hs : env.uploadStartOk = false
    · right
      refine ⟨by simp [hd, hs, mkResp], "Gemini upload initialization failed", by decide, by simp [hd, hs]⟩
    · by_cases ht : env.uploadTransferOk = false
      · right
        refine ⟨by simp [hd, hs, ht, mkResp], "Gemini file upload failed", by decide, by simp [hd, hs, ht]⟩
      · cases hg : env.genOutcome with
        | netFail m =>
            right
            refine ⟨by simp [hd, hs, ht, hg, mkResp], "Gemini analysis failed", by decide, by simp [hd, hs, ht, hg]⟩
        | httpFail t =>
            right
            refine ⟨by simp [hd, hs, ht, hg, mkResp], "Gemini analysis failed", by decide, by simp [hd, hs, ht, hg]⟩
        | ok text =>
            by_cases hne : jsTrim text = ""
            · right
              refine ⟨by simp [hd, hs, ht, hg, hne, mkResp], "Gemini analysis failed", by decide, by simp [hd, hs, ht, hg, hne]⟩
            · cases hp : env.parseJson (extractJson (jsTrim text)) with
              | error m =>
                  right
                  refine ⟨by simp [hd, hs, ht, hg, hne, hp, mkResp], "Gemini analysis failed", by decide, by simp [hd, hs, ht, hg, hne, hp]⟩
              | ok parsed =>
                  by_cases hu : env.upsertOk = false
                  · right
                    refine ⟨by simp [hd, hs, ht, hg, hne, hp, hu, mkResp], "Failed to save analysis", by decide, by simp [hd, hs, ht, hg, hne, hp, hu]⟩
                  · left
                    refine ⟨by simp [hd, hs, ht, hg, hne, hp, hu], buildAnalysisData parsed, by simp [hd, hs, ht, hg, hne, hp, hu]⟩

/-- Once the invocation reaches mark-processing, the full handler
coincides with the pipeline run. -/
lemma handle_eq_pipeline (env : OrchEnv) (body : ReqBody) (db : DB) (v : String)
    (hv : resolveVideoIdFull body = Except.ok v)
    (h : reachesProcessing env body db = true) :
    handleRequest env body db = runPipeline env v := by
  unfold reachesProcessing at h
  rw [hv] at h
  rw [Bool.and_eq_true] at h
  obtain ⟨hk, hj⟩ := h
  unfold handleRequest
  rw [hv]
  cases hsj : singleJob db v with
  | none => rw [hsj] at hj; simp at hj
  | some j =>
      rw [hsj] at hj
      have hj' : hasStoragePath j = true := hj
      simp [hk, hsj, hj']

/-- The job row the invocation resolved. -/
lemma reaches_singleJob (env : OrchEnv) (body : ReqBody) (db : DB) (v : String)
    (hv : resolveVideoIdFull body = Except.ok v)
    (h : reachesProcessing env body db = true) :
    ∃ j, singleJob db v = some j := by
  unfold reachesProcessing at h
  rw [hv] at h
  rw [Bool.and_eq_true] at h
  obtain ⟨-, hj⟩ := h
  cases hsj : singleJob db v with
  | none => rw [hsj] at hj; simp at hj
  | some j => exact ⟨j, rfl⟩

lemma jobStatus_after_fail (db : DB) (v : String) (j : Job) (m : String)
    (hl : lookupJob db v = some j) (hm : m ≠ "") :
    jobStatusIn (applyOps db [StoreOp.setStatus v "processing" none,
        StoreOp.setStatus v "failed" (some m)]) v = some "failed" ∧
    jobErrorIn (applyOps db [StoreOp.setStatus v "processing" none,
        StoreOp.setStatus v "failed" (some m)]) v = some (some m) := by
  simp [applyOps, jobStatusIn, jobErrorIn, lookupJob_applyStatus, hl, updJob, hm]

lemma jobStatus_after_success (db : DB) (v : String) (j : Job) (d : AnalysisData)
    (hl : lookupJob db v = some j) :
    jobStatusIn (applyOps db [StoreOp.setStatus v "processing" none,
        StoreOp.upsertAnalysis v d,
        StoreOp.setStatus v "completed" none]) v = some "completed" := by
  have h2 : lookupJob (applyOp (applyOp db (StoreOp.setStatus v "processing" none))
      (StoreOp.upsertAnalysis v d)) v =
      (lookupJob db v).map (updJob "processing" none) := by
    rw [lookupJob_upsert, lookupJob_applyStatus]
  simp [applyOps, jobStatusIn, lookupJob_applyStatus, h2, hl, updJob]

/-- The resolve-job step succeeds with a usable row: exactly one row
matches and it has a storage path. -/
def jobResolvable (db : DB) (v : String) : Bool :=
  match singleJob db v with
  | some j => hasStoragePath j
  | none => false

/-- The state of the database after one handler invocation. -/
def finalDB (env : OrchEnv) (body : ReqBody) (db : DB) : DB :=
  applyOps db (handleRequest env body db).2

/-! ## Concrete fixtures -/

def bodyAbc : ReqBody := ReqBody.fields none (some "abc")

def envAllOk : OrchEnv :=
  { geminiKeySet := true
    downloadOk := true
    uploadStartOk := true
    uploadTransferOk := true
    genOutcome := GenOutcome.ok "response"
    parseJson := fun _ => Except.ok (JsVal.obj [])
    upsertOk := true
    upsertErrMsg := "" }

def envUploadFail : OrchEnv := { envAllOk with uploadStartOk := false }

def dbCompleted : DB :=
  { jobs := [{ id := "abc", storagePath := some "uploads/abc.mp4",
               status := "completed", errorMessage := none }]
    analyses := [] }

def dbPending : DB :=
  { jobs := [{ id := "abc", storagePath := some "uploads/abc.mp4",
               status := "processing", errorMessage := none }]
    analyses := [] }

def dbEmpty : DB := { jobs := [], analyses := [] }

def rawTextC5 : String := "certainly not valid json output"

def parseMsgC5 : String := "Unexpected token c in JSON at position 0"

def envParseFail : OrchEnv :=
  { envAllOk with
    genOutcome := GenOutcome.ok rawTextC5
    parseJson := fun _ => Except.error parseMsgC5 }

/-! ## Claim theorems: orchestrator -/

/-- Claim C1, counterexample: re-invoking the orchestrator for the
job abc that is already in the terminal state completed performs an
unconditional status write, so right after the mark-processing write
the job status has regressed from completed to processing. -/
theorem c1_counterexample :
    jobStatusIn dbCompleted "abc" = some "completed" ∧
    jobStatusIn
      (applyOps dbCompleted
        ((handleRequest envAllOk bodyAbc dbCompleted).2.take 1)) "abc" =
      some "processing" :=
  ⟨rfl, rfl⟩

/-- Claim C1 as amended: within a single invocation that reaches the
mark-processing step, the job receives exactly two status writes, a
processing write followed by one terminal write, and no write follows
the terminal one; the original claim fails because a re-invocation
for a job already in a terminal state still performs the processing
write (see the counterexample). -/
theorem c1_amended_single_invocation (env : OrchEnv) (body : ReqBody) (db : DB)
    (h : reachesProcessing env body db = true) :
    ∃ v t, resolveVideoIdFull body = Except.ok v ∧
      statusWritesOf (handleRequest env body db).2 = ["processing", t] ∧
      (t = "completed" ∨ t = "failed") := by
  cases hv : resolveVideoIdFull body with
  | error e =>
      unfold reachesProcessing at h
      rw [hv] at h
      simp at h
  | ok v =>
      have heq := handle_eq_pipeline env body db v hv h
      rw [heq]
      rcases runPipeline_cases env v with ⟨-, d, hops⟩ | ⟨-, m, -, hops⟩
      · exact ⟨v, "completed", rfl, by rw [hops]; rfl, Or.inl rfl⟩
      · exact ⟨v, "failed", rfl, by rw [hops]; rfl, Or.inr rfl⟩

/-- Witness for the amended claim C1 at a concrete invocation. -/
theorem c1_witness :
    reachesProcessing envAllOk bodyAbc dbCompleted = true ∧
    ∃ v t, resolveVideoIdFull bodyAbc = Except.ok v ∧
      statusWritesOf (handleRequest envAllOk bodyAbc dbCompleted).2 = ["processing", t] ∧
      (t = "completed" ∨ t = "failed") :=
  ⟨rfl, c1_amended_single_invocation envAllOk bodyAbc dbCompleted rfl⟩

/-- Claim C3: every invocation that reaches the mark-processing step
ends with the job in a terminal state; a 200 response leaves it
completed, and every failure response leaves it failed with one of
the five short error messages recorded, so the job is never left
stuck in processing. -/
theorem c3_terminal_on_every_failure (env : OrchEnv) (body : ReqBody) (db : DB)
    (v : String)
    (hv : resolveVideoIdFull body = Except.ok v)
    (h : reachesProcessing env body db = true) :
    ((handleRequest env body db).1.status = 200 ∧
      jobStatusIn (finalDB env body db) v = some "completed") ∨
    ((handleRequest env body db).1.status ≠ 200 ∧
      jobStatusIn (finalDB env body db) v = some "failed" ∧
      ∃ m, m ∈ failureMessages ∧ jobErrorIn (finalDB env body db) v = some (some m)) := by
  obtain ⟨j, hsj⟩ := reaches_singleJob env body db v hv h
  have hl := lookup_of_single db v j hsj
  have heq := handle_eq_pipeline env body db v hv h
  unfold finalDB
  rw [heq]
  rcases runPipeline_cases env v with ⟨hst, d, hops⟩ | ⟨hst, m, hm, hops⟩
  · left
    refine ⟨hst, ?_⟩
    rw [hops]
    exact jobStatus_after_success db v j d hl
  · right
    refine ⟨hst, ?_, m, hm, ?_⟩
    · rw [hops]
      exact (jobStatus_after_fail db v j m hl (mem_failureMessages_ne_empty m hm)).1
    · rw [hops]
      exact (jobStatus_after_fail db v j m hl (mem_failureMessages_ne_empty m hm)).2

/-- Witness for claim C3 at a concrete failing invocation. -/
theorem c3_witness :
    resolveVideoIdFull bodyAbc = Except.ok "abc" ∧
    reachesProcessing envUploadFail bodyAbc dbPending = true ∧
    (((handleRequest envUploadFail bodyAbc dbPending).1.status = 200 ∧
        jobStatusIn (finalDB envUploadFail bodyAbc dbPending) "abc" = some "completed") ∨
     ((handleRequest envUploadFail bodyAbc dbPending).1.status ≠ 200 ∧
        jobStatusIn (finalDB envUploadFail bodyAbc dbPending) "abc" = some "failed" ∧
        ∃ m, m ∈ failureMessages ∧
          jobErrorIn (finalDB envUploadFail bodyAbc dbPending) "abc" = some (some m))) :=
  ⟨rfl, rfl, c3_terminal_on_every_failure envUploadFail bodyAbc dbPending "abc" rfl rfl⟩

/-- Claim C10: when the body resolves to an id but no usable job row
exists (no row, several rows, or a row without a storage path), the
handler responds 404, performs no store operation, and the store is
unchanged. -/
theorem c10_not_found_no_write (env : OrchEnv) (body : ReqBody) (db : DB) (v : String)
    (hv : resolveVideoIdFull body = Except.ok v)
    (hk : env.geminiKeySet = true)
    (hj : jobResolvable db v = false) :
    (handleRequest env body db).1.status = 404 ∧
    (handleRequest env body db).2 = [] ∧
    applyOps db (handleRequest env body db).2 = db := by
  unfold handleRequest
  rw [hv]
  unfold jobResolvable at hj
  cases hs : singleJob db v with
  | none => simp [hk, hs, notFoundResp, mkResp, applyOps]
  | some j =>
      rw [hs] at hj
      have hj' : hasStoragePath j = false := hj
      simp [hk, hs, hj', notFoundResp, mkResp, applyOps]

/-- Witness for claim C10: invoking with id abc against an empty
store. -/
theorem c10_witness :
    resolveVideoIdFull bodyAbc = Except.ok "abc" ∧
    envAllOk.geminiKeySet = true ∧
    jobResolvable dbEmpty "abc" = false ∧
    ((handleRequest envAllOk bodyAbc dbEmpty).1.status = 404 ∧
     (handleRequest envAllOk bodyAbc dbEmpty).2 = [] ∧
     applyOps dbEmpty (handleRequest envAllOk bodyAbc dbEmpty).2 = dbEmpty) :=
  ⟨rfl, rfl, rfl, c10_not_found_no_write envAllOk bodyAbc dbEmpty "abc" rfl rfl rfl⟩

/-- Claim C5, counterexample: in the part_002 handler an unparseable
inference response stores the short generic message and returns the
JSON parse error as the detail, and that diagnostic does not carry
any preview of the raw text (the first 500 characters of the raw text
do not occur in it). -/
theorem c5_counterexample :
    (handleRequest envParseFail bodyAbc dbPending).1.error = some "Gemini analysis failed" ∧
    (handleRequest envParseFail bodyAbc dbPending).1.detail = some parseMsgC5 ∧
    containsSubstrJs parseMsgC5 (stringTake rawTextC5 500) = false ∧
    jobErrorIn (applyOps dbPending (handleRequest envParseFail bodyAbc dbPending).2) "abc" =
      some (some "Gemini analysis failed") :=
  ⟨rfl, rfl, by decide, rfl⟩

/-- Claim C5 as amended: the part_002 handler stores only the short
generic message and returns the JSON parse error message as the
detailed diagnostic, without any raw-text preview; the raw-text
preview lives in the analysis_trigger variant (part_003), whose parse
catch returns a diagnostic carrying the first 500 characters of the
raw text but writes status failed without any error message. -/
theorem c5_amended (env : OrchEnv) (body : ReqBody) (db : DB) (v text m : String)
    (hv : resolveVideoIdFull body = Except.ok v)
    (h : reachesProcessing env body db = true)
    (hdl : env.downloadOk = true) (hus : env.uploadStartOk = true)
    (hut : env.uploadTransferOk = true)
    (hg : env.genOutcome = GenOutcome.ok text)
    (hne : ¬ jsTrim text = "")
    (hp : env.parseJson (extractJson (jsTrim text)) = Except.error m) :
    ((handleRequest env body db).1 = mkResp 502 (some "Gemini analysis failed") (some m) ∧
     jobStatusIn (applyOps db (handleRequest env body db).2) v = some "failed" ∧
     jobErrorIn (applyOps db (handleRequest env body db).2) v =
       some (some "Gemini analysis failed")) ∧
    (∀ vid t pm,
      (analysisTriggerParseCatch vid t pm).1.rawPreview = stringTake t 500 ∧
      (analysisTriggerParseCatch vid t pm).1.parseError = pm ∧
      (analysisTriggerParseCatch vid t pm).2 = StoreOp.setStatus vid "failed" none) := by
  obtain ⟨j, hsj⟩ := reaches_singleJob env body db v hv h
  have hl := lookup_of_single db v j hsj
  have heq := handle_eq_pipeline env body db v hv h
  rw [heq]
  have hpipe : runPipeline env v =
      (mkResp 502 (some "Gemini analysis failed") (some m),
       [StoreOp.setStatus v "processing" none,
        StoreOp.setStatus v "failed" (some "Gemini analysis failed")]) := by
    unfold runPipeline
    simp [hdl, hus, hut, hg, hne, hp]
  rw [hpipe]
  refine ⟨⟨rfl, ?_, ?_⟩, fun vid t pm => ⟨rfl, rfl, rfl⟩⟩
  · exact (jobStatus_after_fail db v j "Gemini analysis failed" hl (by decide)).1
  · exact (jobStatus_after_fail db v j "Gemini analysis failed" hl (by decide)).2

/-- Witness for the amended claim C5 at a concrete invocation with an
unparseable response. -/
theorem c5_witness :
    envParseFail.parseJson (extractJson (jsTrim rawTextC5)) = Except.error parseMsgC5 ∧
    (((handleRequest envParseFail bodyAbc dbPending).1 =
        mkResp 502 (some "Gemini analysis failed") (some parseMsgC5) ∧
      jobStatusIn (applyOps dbPending (handleRequest envParseFail bodyAbc dbPending).2) "abc" =
        some "failed" ∧
      jobErrorIn (applyOps dbPending (handleRequest envParseFail bodyAbc dbPending).2) "abc" =
        some (some "Gemini analysis failed")) ∧
     (∀ vid t pm,
       (analysisTriggerParseCatch vid t pm).1.rawPreview = stringTake t 500 ∧
       (analysisTriggerParseCatch vid t pm).1.parseError = pm ∧
       (analysisTriggerParseCatch vid t pm).2 = StoreOp.setStatus vid "failed" none)) :=
  ⟨rfl, c5_amended envParseFail bodyAbc dbPending "abc" rawTextC5 parseMsgC5
    rfl rfl rfl rfl rfl rfl (by decide) rfl⟩

/-- Claim C7: the handler extracts the JSON string by fenced-block
interior first, and otherwise by slicing from the first opening brace
to the last closing brace; both concrete inputs from the claim
extract the expected object text, and in the absence of any fence the
extraction coincides with the brace slice. -/
theorem c7_extraction :
    extractJson "prose \x60\x60\x60json\n\x7b\"summary\":\"s\"\x7d\n\x60\x60\x60" =
      "\x7b\"summary\":\"s\"\x7d" ∧
    extractJson "noise\x7b\"summary\":\"s\"\x7dtrailing" = "\x7b\"summary\":\"s\"\x7d" ∧
    (∀ s, fenceSearch s.toList = none → extractJson s = braceSlice s) := by
  refine ⟨rfl, rfl, ?_⟩
  intro s hf
  unfold extractJson
  rw [hf]

/-- Witness for claim C7 instantiating the no-fence conjunct. -/
theorem c7_witness :
    fenceSearch ("noise\x7b\"summary\":\"s\"\x7dtrailing").toList = none ∧
    extractJson "noise\x7b\"summary\":\"s\"\x7dtrailing" =
      braceSlice "noise\x7b\"summary\":\"s\"\x7dtrailing" :=
  ⟨rfl, c7_extraction.2.2 "noise\x7b\"summary\":\"s\"\x7dtrailing" rfl⟩

def isObjVal : JsVal → Bool
  | JsVal.obj _ => true
  | _ => false

/-- Claim C8: key-insight normalization passes through objects that
carry both a timestamp and an importance key (with the text field
stringified, hence literally unchanged when text is already a
string), sends every non-object item to the 0 and 5 defaults with the
item stringified, and on the concrete claim input produces exactly
the expected two normalized objects. -/
theorem c8_key_insights :
    normalizeKeyInsights
      (JsVal.arr
        [JsVal.obj [("timestamp", JsVal.num 5), ("importance", JsVal.num 9),
                    ("text", JsVal.str "x")],
         JsVal.str "plain string"]) =
      [JsVal.obj [("timestamp", JsVal.num 5), ("importance", JsVal.num 9),
                  ("text", JsVal.str "x")],
       JsVal.obj [("timestamp", JsVal.num 0), ("importance", JsVal.num 5),
                  ("text", JsVal.str "plain string")]] ∧
    (∀ t i s, normalizeKeyInsight
        (JsVal.obj [("timestamp", t), ("importance", i), ("text", JsVal.str s)]) =
        JsVal.obj [("timestamp", t), ("importance", i), ("text", JsVal.str s)]) ∧
    (∀ item, isObjVal item = false →
        normalizeKeyInsight item =
          JsVal.obj [("timestamp", JsVal.num 0), ("importance", JsVal.num 5),
                     ("text", JsVal.str (jsToString item))]) := by
  refine ⟨rfl, fun t i s => rfl, ?_⟩
  intro item hobj
  cases item with
  | obj fields => simp [isObjVal] at hobj
  | str s => rfl
  | num n => rfl
  | boolV b => rfl
  | nul => rfl
  | undef => rfl
  | arr xs => rfl

/-- Witness for claim C8 instantiating the non-object conjunct. -/
theorem c8_witness :
    isObjVal (JsVal.str "plain string") = false ∧
    normalizeKeyInsight (JsVal.str "plain string") =
      JsVal.obj [("timestamp", JsVal.num 0), ("importance", JsVal.num 5),
                 ("text", JsVal.str (jsToString (JsVal.str "plain string")))] :=
  ⟨rfl, c8_key_insights.2.2 (JsVal.str "plain string") rfl⟩

/-! ## Helper lemmas about the synchronization client -/

lemma applyResult_payload (s : ClientState) (d : Option RowE) (f : Option String)
    (h : s.internalPayload.isSome = true) :
    (applyResult s d f).internalPayload.isSome = true := by
  cases d with
  | none => exact h
  | some x => rfl

lemma fetchOnceStep_state_payload (s : ClientState) (b : Bool) (r : PullResult) :
    ((fetchOnceStep s b r).2).internalPayload = s.internalPayload := by
  cases r with
  | ok row => rfl
  | err code msg =>
      unfold fetchOnceStep
      by_cases h4 : is400 code msg = true
      · simp [h4]
      · by_cases hb : b = true <;> simp [h4, hb]
  | exn msg =>
      unfold fetchOnceStep
      by_cases hb : b = true <;> simp [hb]

lemma statusAdopt_payload (s : ClientState) (st : Option String) :
    (statusAdopt s st).internalPayload = s.internalPayload := by
  unfold statusAdopt
  cases st with
  | none => rfl
  | some v => by_cases hv : v = "" <;> simp [hv]

lemma statusApply_payload (s : ClientState) (st : Option String) :
    (statusApply s st).internalPayload = s.internalPayload := by
  unfold statusApply
  by_cases hf : st = some "failed" <;> simp [hf, statusAdopt_payload]

lemma fetchVideoStatusStep_payload (s : ClientState) (sp : StatusPull) :
    (fetchVideoStatusStep s sp).internalPayload = s.internalPayload := by
  cases sp with
  | err m => rfl
  | exn m => rfl
  | ok st => exact statusApply_payload s st

lemma fetchLatestAnalysisStep_payload (s : ClientState) (lp : LatestPull)
    (h : s.internalPayload.isSome = true) :
    ((fetchLatestAnalysisStep s lp).2).internalPayload.isSome = true := by
  cases lp with
  | err m => exact h
  | exn m => exact h
  | ok row =>
      cases row with
      | none => exact h
      | some r =>
          unfold fetchLatestAnalysisStep
          cases hrp : rowToPayload (some r) with
          | none => simp [hrp]; exact h
          | some p =>
              cases hv : r.videoId with
              | none => simp [hrp, hv]; exact h
              | some vid =>
                  by_cases hvv : vid = ""
                  · simp [hrp, hv, hvv]; exact h
                  · simp only [hrp, hv, hvv]
                    simp [hvv]
                    exact applyResult_payload s (some p) (some vid) h

lemma runPollStep_payload (s : ClientState) (now : Nat) (ap : PullResult)
    (lp : LatestPull) (sp : StatusPull) (h : s.internalPayload.isSome = true) :
    (runPollStep s now ap lp sp).internalPayload.isSome = true := by
  unfold runPollStep
  by_cases ht : now - s.pollStart > MAX_POLL_TIMEOUT_MS
  · simp [ht]; exact h
  · simp only [ht, if_false]
    have hfo := fetchOnceStep_state_payload s false ap
    cases hres : fetchOnceStep s false ap with
    | mk pl s1 =>
        rw [hres] at hfo
        cases pl with
        | some p => exact applyResult_payload s1 (some p) none (by rw [hfo]; exact h)
        | none =>
            have h1 : s1.internalPayload.isSome = true := by rw [hfo]; exact h
            have hla := fetchLatestAnalysisStep_payload s1 lp h1
            show (match fetchLatestAnalysisStep s1 lp with
                  | (true, s2) => s2
                  | (false, s2) => fetchVideoStatusStep s2 sp).internalPayload.isSome = true
            cases hlat : fetchLatestAnalysisStep s1 lp with
            | mk used s2 =>
                rw [hlat] at hla
                cases used with
                | true => exact hla
                | false =>
                    show (fetchVideoStatusStep s2 sp).internalPayload.isSome = true
                    rw [fetchVideoStatusStep_payload]
                    exact hla

lemma initialFetchStep_payload (s : ClientState) (ap : PullResult) (lp : LatestPull)
    (h : s.internalPayload.isSome = true) :
    (initialFetchStep s ap lp).internalPayload.isSome = true := by
  unfold initialFetchStep
  have hfo := fetchOnceStep_state_payload s true ap
  cases hres : fetchOnceStep s true ap with
  | mk pl s1 =>
      rw [hres] at hfo
      cases pl with
      | some p => exact applyResult_payload s1 (some p) none (by rw [hfo]; exact h)
      | none =>
          exact fetchLatestAnalysisStep_payload _ lp (by rw [show ({ s1 with loading := true } : ClientState).internalPayload = s1.internalPayload from rfl, hfo]; exact h)

lemma pushAnalysisStep_payload (s : ClientState) (row : RowE)
    (h : s.internalPayload.isSome = true) :
    (pushAnalysisStep s row).internalPayload.isSome = true := by
  unfold pushAnalysisStep
  cases hrp : rowToPayload (some row) with
  | none => exact h
  | some p => exact applyResult_payload s (some p) none h

/-- Once a payload is displayed it never goes back to null: no client
event resets internalPayload to none. -/
lemma step_payload (s : ClientState) (ev : Ev) (h : s.internalPayload.isSome = true) :
    (step s ev).internalPayload.isSome = true := by
  cases ev with
  | pollTick now ap lp sp =>
      show (if s.pollActive = true then runPollStep s now ap lp sp else s).internalPayload.isSome = true
      by_cases hpa : s.pollActive = true
      · rw [if_pos hpa]; exact runPollStep_payload s now ap lp sp h
      · rw [if_neg hpa]; exact h
  | earlyPoll now ap lp sp =>
      show (if s.earlyTimerPending = true then
          runPollStep { s with earlyTimerPending := false } now ap lp sp
        else s).internalPayload.isSome = true
      by_cases hpe : s.earlyTimerPending = true
      · rw [if_pos hpe]
        exact runPollStep_payload _ now ap lp sp h
      · rw [if_neg hpe]; exact h
  | initialFetch ap lp => exact initialFetchStep_payload s ap lp h
  | statusFetch sp =>
      show (fetchVideoStatusStep s sp).internalPayload.isSome = true
      rw [fetchVideoStatusStep_payload]; exact h
  | pushAnalysisRow row =>
      show (if s.channelsActive = true then pushAnalysisStep s row else s).internalPayload.isSome = true
      by_cases hch : s.channelsActive = true
      · rw [if_pos hch]; exact pushAnalysisStep_payload s row h
      · rw [if_neg hch]; exact h
  | pushVideoStatus st =>
      show (if s.channelsActive = true then pushVideoStatusStep s st else s).internalPayload.isSome = true
      by_cases hch : s.channelsActive = true
      · rw [if_pos hch]
        show (statusApply s st).internalPayload.isSome = true
        rw [statusApply_payload]; exact h
      · rw [if_neg hch]; exact h
  | cleanup => exact h

/-- A push delivery that yields a payload applies it: payload set,
error cleared, loading stopped, nothing cancelled. -/
lemma pushAnalysis_applies (s : ClientState) (r : RowE)
    (hch : s.channelsActive = true) (hr : rowToPayload (some r) = some r) :
    step s (Ev.pushAnalysisRow r) =
      { s with internalPayload := some r, error := none, loading := false } := by
  simp [step, hch, pushAnalysisStep, hr, applyResult]

/-! ## Concrete client fixtures -/

def rowAbc : RowE := { rid := some "r1", videoId := some "abc", content := 1 }

def rowAbc2 : RowE := { rid := some "r1", videoId := some "abc", content := 2 }

def rowOther : RowE := { rid := some "r9", videoId := some "other", content := 7 }

def readyState : ClientState :=
  { initState 0 with internalPayload := some rowAbc, loading := false }

/-! ## Claim theorems: synchronization client -/

/-- Claim C2, counterexample: a push delivery makes the view ready,
but neither the poll interval nor the channels are cancelled at that
point, and a later delivery for the same job is re-applied (the
payload changes to the newly delivered record) instead of being
ignored. -/
theorem c2_counterexample :
    (step (initState 0) (Ev.pushAnalysisRow rowAbc)).internalPayload = some rowAbc ∧
    (step (initState 0) (Ev.pushAnalysisRow rowAbc)).pollActive = true ∧
    (step (initState 0) (Ev.pushAnalysisRow rowAbc)).channelsActive = true ∧
    (step (step (initState 0) (Ev.pushAnalysisRow rowAbc))
        (Ev.pushAnalysisRow rowAbc2)).internalPayload = some rowAbc2 ∧
    rowAbc2 ≠ rowAbc := by
  refine ⟨rfl, rfl, rfl, rfl, by decide⟩

/-- Claim C2 as amended: the first delivery yielding a non-null
record makes the view ready (payload set, error cleared, loading
stopped) and a displayed payload never becomes null again; but
nothing is cancelled at that point — the interval and channel flags
are untouched — and a duplicate delivery of the already displayed
record is re-applied, leaving the state unchanged (idempotent) rather
than being dropped. -/
theorem c2_amended :
    (∀ s r, s.channelsActive = true → rowToPayload (some r) = some r →
      (step s (Ev.pushAnalysisRow r)).internalPayload = some r ∧
      (step s (Ev.pushAnalysisRow r)).error = none ∧
      (step s (Ev.pushAnalysisRow r)).loading = false ∧
      (step s (Ev.pushAnalysisRow r)).pollActive = s.pollActive ∧
      (step s (Ev.pushAnalysisRow r)).channelsActive = true) ∧
    (∀ s ev, s.internalPayload.isSome = true →
      (step s ev).internalPayload.isSome = true) ∧
    (∀ s r, s.channelsActive = true → rowToPayload (some r) = some r →
      s.internalPayload = some r → s.error = none → s.loading = false →
      step s (Ev.pushAnalysisRow r) = s) := by
  refine ⟨?_, step_payload, ?_⟩
  · intro s r hch hr
    rw [pushAnalysis_applies s r hch hr]
    exact ⟨rfl, rfl, rfl, rfl, hch⟩
  · intro s r hch hr hp herr hld
    rw [pushAnalysis_applies s r hch hr]
    rw [← hp, ← herr, ← hld]

/-- Witness for the amended claim C2 at concrete states. -/
theorem c2_witness :
    (step (initState 0) (Ev.pushAnalysisRow rowAbc)).internalPayload = some rowAbc ∧
    (step readyState Ev.cleanup).internalPayload.isSome = true ∧
    step readyState (Ev.pushAnalysisRow rowAbc) = readyState :=
  ⟨(c2_amended.1 (initState 0) rowAbc rfl rfl).1,
   c2_amended.2.1 readyState Ev.cleanup rfl,
   c2_amended.2.2 readyState rowAbc rfl rfl rfl rfl rfl⟩

/-- Claim C4, counterexample: a hard pull error (neither a 400-class
code nor message) arriving on a recurring poll neither sets the error
state nor stops polling — the state is exactly unchanged, because
recurring polls run fetchOnce with error reporting disabled and no
branch of fetchOnce clears the interval. -/
theorem c4_counterexample :
    is400 "XX000" "connection refused" = false ∧
    step (initState 0)
        (Ev.pollTick 3000 (PullResult.err "XX000" "connection refused")
          (LatestPull.ok none) (StatusPull.err "down")) = initState 0 := by
  refine ⟨by decide, by decide⟩

/-- Claim C4 as amended: 400-class pull errors are soft everywhere
(logged, state unchanged, polling continues); on recurring polls even
hard errors are suppressed (state unchanged); a hard error sets the
error state only on the one-time initial fetch, and even there the
interval is untouched and the loading flag is forced back on by the
fallback chain — no pull error ever stops polling. -/
theorem c4_amended :
    (∀ s now code msg m2, ¬ now - s.pollStart > MAX_POLL_TIMEOUT_MS →
      step s (Ev.pollTick now (PullResult.err code msg)
        (LatestPull.ok none) (StatusPull.err m2)) = s) ∧
    (∀ s code msg, is400 code msg = false →
      step s (Ev.initialFetch (PullResult.err code msg) (LatestPull.ok none)) =
        { s with error := some msg, loading := true }) ∧
    (∀ s code msg, is400 code msg = true →
      step s (Ev.initialFetch (PullResult.err code msg) (LatestPull.ok none)) =
        { s with loading := true }) := by
  refine ⟨?_, ?_, ?_⟩
  · intro s now code msg m2 ht
    show (if s.pollActive = true then _ else s) = s
    by_cases hpa : s.pollActive = true
    · rw [if_pos hpa]
      unfold runPollStep
      rw [if_neg ht]
      have hfo : fetchOnceStep s false (PullResult.err code msg) = (none, s) := by
        show (if is400 code msg = true then (none, s)
              else if false = true then
                (none, { s with error := some msg, loading := false })
              else (none, s)) = ((none : Option RowE), s)
        by_cases h4 : is400 code msg = true <;> simp [h4]
      rw [hfo]
      rfl
    · rw [if_neg hpa]
  · intro s code msg h4
    show initialFetchStep s (PullResult.err code msg) (LatestPull.ok none) = _
    unfold initialFetchStep
    have hfo : fetchOnceStep s true (PullResult.err code msg) =
        (none, { s with error := some msg, loading := false }) := by
      show (if is400 code msg = true then (none, s)
            else if true = true then
              (none, { s with error := some msg, loading := false })
            else (none, s)) =
        ((none : Option RowE), { s with error := some msg, loading := false })
      simp [h4]
    rw [hfo]
    rfl
  · intro s code msg h4
    show initialFetchStep s (PullResult.err code msg) (LatestPull.ok none) = _
    unfold initialFetchStep
    have hfo : fetchOnceStep s true (PullResult.err code msg) = (none, s) := by
      show (if is400 code msg = true then (none, s)
            else if true = true then
              (none, { s with error := some msg, loading := false })
            else (none, s)) = ((none : Option RowE), s)
      simp [h4]
    rw [hfo]
    rfl

/-- Witness for the amended claim C4 at concrete inputs. -/
theorem c4_witness :
    step (initState 0)
        (Ev.pollTick 3000 (PullResult.err "XX000" "connection refused")
          (LatestPull.ok none) (StatusPull.err "down")) = initState 0 ∧
    step (initState 0)
        (Ev.initialFetch (PullResult.err "XX000" "connection refused")
          (LatestPull.ok none)) =
      { initState 0 with error := some "connection refused", loading := true } ∧
    step (initState 0)
        (Ev.initialFetch (PullResult.err "PGRST301" "schema drift")
          (LatestPull.ok none)) =
      { initState 0 with loading := true } :=
  ⟨c4_amended.1 (initState 0) 3000 "XX000" "connection refused" "down" (by decide),
   c4_amended.2.1 (initState 0) "XX000" "connection refused" (by decide),
   c4_amended.2.2 (initState 0) "PGRST301" "schema drift" (by decide)⟩

/-- Claim C6, counterexample: the timeout transition sets the error
and clears the interval, but the push subscriptions stay subscribed,
and a later push delivery still fires: it replaces the timeout error
with a ready view. -/
theorem c6_counterexample :
    (step (initState 0)
        (Ev.pollTick 300001 (PullResult.ok none) (LatestPull.ok none)
          (StatusPull.err "x"))).error = some timeoutMessage ∧
    (step (initState 0)
        (Ev.pollTick 300001 (PullResult.ok none) (LatestPull.ok none)
          (StatusPull.err "x"))).pollActive = false ∧
    (step (initState 0)
        (Ev.pollTick 300001 (PullResult.ok none) (LatestPull.ok none)
          (StatusPull.err "x"))).channelsActive = true ∧
    (step (step (initState 0)
        (Ev.pollTick 300001 (PullResult.ok none) (LatestPull.ok none)
          (StatusPull.err "x"))) (Ev.pushAnalysisRow rowAbc)).internalPayload =
      some rowAbc ∧
    (step (step (initState 0)
        (Ev.pollTick 300001 (PullResult.ok none) (LatestPull.ok none)
          (StatusPull.err "x"))) (Ev.pushAnalysisRow rowAbc)).error = none := by
  refine ⟨by decide, by decide, by decide, by decide, by decide⟩

/-- Claim C6 as amended: once wall clock exceeds the five-minute
timeout, the next interval tick sets the timeout error and stops the
interval in one transition, and interval ticks after the interval is
cleared are no-ops (so the interval produces the timeout transition
exactly once); but the push subscriptions are not removed, and a
later push delivery still fires and can replace the timeout error
with a ready view. -/
theorem c6_amended :
    (∀ s now ap lp sp, s.pollActive = true →
      now - s.pollStart > MAX_POLL_TIMEOUT_MS →
      step s (Ev.pollTick now ap lp sp) =
        { s with pollActive := false, error := some timeoutMessage, loading := false }) ∧
    (∀ s now ap lp sp, s.pollActive = false →
      step s (Ev.pollTick now ap lp sp) = s) ∧
    (∀ s r, s.channelsActive = true → rowToPayload (some r) = some r →
      (step s (Ev.pushAnalysisRow r)).internalPayload = some r ∧
      (step s (Ev.pushAnalysisRow r)).error = none) := by
  refine ⟨?_, ?_, ?_⟩
  · intro s now ap lp sp hpa ht
    show (if s.pollActive = true then runPollStep s now ap lp sp else s) = _
    rw [if_pos hpa]
    unfold runPollStep
    rw [if_pos ht]
  · intro s now ap lp sp hpa
    show (if s.pollActive = true then runPollStep s now ap lp sp else s) = s
    rw [if_neg (by rw [hpa]; exact Bool.false_ne_true)]
  · intro s r hch hr
    rw [pushAnalysis_applies s r hch hr]
    exact ⟨rfl, rfl⟩

/-- Witness for the amended claim C6 at concrete states. -/
theorem c6_witness :
    step (initState 0)
        (Ev.pollTick 300001 (PullResult.ok none) (LatestPull.ok none)
          (StatusPull.ok (some "processing"))) =
      { initState 0 with pollActive := false, error := some timeoutMessage,
                         loading := false } ∧
    step { initState 0 with pollActive := false }
        (Ev.pollTick 300004 (PullResult.ok none) (LatestPull.ok none)
          (StatusPull.ok (some "processing"))) =
      { initState 0 with pollActive := false } ∧
    (step { initState 0 with pollActive := false }
        (Ev.pushAnalysisRow rowAbc)).internalPayload = some rowAbc :=
  ⟨c6_amended.1 (initState 0) 300001 (PullResult.ok none) (LatestPull.ok none)
      (StatusPull.ok (some "processing")) rfl (by decide),
   c6_amended.2.1 { initState 0 with pollActive := false } 300004
      (PullResult.ok none) (LatestPull.ok none)
      (StatusPull.ok (some "processing")) rfl,
   (c6_amended.2.2 { initState 0 with pollActive := false } rowAbc rfl rfl).1⟩

/-- Claim C9, counterexample: after a push has already made the view
ready for the requested job, a poll whose lookup for that id finds
nothing adopts the latest analysis of a different job — the fallback
overrides the already-ready state. -/
theorem c9_counterexample :
    (step (initState 0) (Ev.pushAnalysisRow rowAbc)).internalPayload = some rowAbc ∧
    (step (step (initState 0) (Ev.pushAnalysisRow rowAbc))
        (Ev.pollTick 3000 (PullResult.ok none) (LatestPull.ok (some rowOther))
          (StatusPull.err "x"))).internalPayload = some rowOther ∧
    (step (step (initState 0) (Ev.pushAnalysisRow rowAbc))
        (Ev.pollTick 3000 (PullResult.ok none) (LatestPull.ok (some rowOther))
          (StatusPull.err "x"))).fallbackVideoId = some "other" ∧
    rowOther ≠ rowAbc := by
  refine ⟨by decide, by decide, by decide, by decide⟩

/-- Claim C9 as amended: within a poll the fallback is consulted only
when the pull for the requested id yields nothing — a successful pull
is applied and the latest-analysis result is ignored — and an adopted
fallback is visibly tagged with the owning job id in fallbackVideoId;
but the fallback does not refuse to override an already-ready state:
when a later pull for the requested id finds nothing, the latest
record is adopted over the displayed one (see the counterexample). -/
theorem c9_amended :
    (∀ s now row lp sp p, ¬ now - s.pollStart > MAX_POLL_TIMEOUT_MS →
      rowToPayload row = some p →
      step s (Ev.pollTick now (PullResult.ok row) lp sp) =
        if s.pollActive = true then
          { s with internalPayload := some p, error := none, loading := false }
        else s) ∧
    (∀ s now row vid sp, s.pollActive = true →
      ¬ now - s.pollStart > MAX_POLL_TIMEOUT_MS →
      rowToPayload (some row) = some row → row.videoId = some vid → ¬ vid = "" →
      step s (Ev.pollTick now (PullResult.ok none)
          (LatestPull.ok (some row)) sp) =
        { s with internalPayload := some row, error := none, loading := false,
                 fallbackVideoId := some vid }) := by
  constructor
  · intro s now row lp sp p ht hr
    show (if s.pollActive = true then runPollStep s now (PullResult.ok row) lp sp else s) = _
    by_cases hpa : s.pollActive = true
    · rw [if_pos hpa, if_pos hpa]
      unfold runPollStep
      rw [if_neg ht]
      have hfo : fetchOnceStep s false (PullResult.ok row) = (some p, s) := by
        show (rowToPayload row, s) = (some p, s)
        rw [hr]
      rw [hfo]
      rfl
    · rw [if_neg hpa, if_neg hpa]
  · intro s now row vid sp hpa ht hr hv hvv
    show (if s.pollActive = true then _ else s) = _
    rw [if_pos hpa]
    unfold runPollStep
    rw [if_neg ht]
    have hla : fetchLatestAnalysisStep s (LatestPull.ok (some row)) =
        (true, applyResult s (some row) (some vid)) := by
      show (match rowToPayload (some row), row.videoId with
            | some p, some v2 =>
                if v2 ≠ "" then (true, applyResult s (some p) (some v2)) else (false, s)
            | _, _ => ((false : Bool), s)) =
        (true, applyResult s (some row) (some vid))
      rw [hr, hv]
      simp [hvv]
    show (match fetchLatestAnalysisStep s (LatestPull.ok (some row)) with
          | (true, s2) => s2
          | (false, s2) => fetchVideoStatusStep s2 sp) = _
    rw [hla]
    rfl

/-- Witness for the amended claim C9 at concrete states. -/
theorem c9_witness :
    step (initState 0)
        (Ev.pollTick 3000 (PullResult.ok (some rowAbc)) (LatestPull.ok (some rowOther))
          (StatusPull.err "x")) =
      (if (initState 0).pollActive = true then
        { initState 0 with internalPayload := some rowAbc, error := none,
                           loading := false }
       else initState 0) ∧
    step (initState 0)
        (Ev.pollTick 3000 (PullResult.ok none) (LatestPull.ok (some rowOther))
          (StatusPull.err "x")) =
      { initState 0 with internalPayload := some rowOther, error := none,
                         loading := false, fallbackVideoId := some "other" } :=
  ⟨c9_amended.1 (initState 0) 3000 (some rowAbc) (LatestPull.ok (some rowOther))
      (StatusPull.err "x") rowAbc (by decide) rfl,
   c9_amended.2 (initState 0) 3000 rowOther "other" (StatusPull.err "x")
      rfl (by decide) rfl rfl (by decide)⟩

end Vync
